import Mathlib

/-!
A shallow embedding of the `architect-vertex` venue connector core
(`src/symbology.rs`, `src/order_entry.rs`, `src/positions.rs`).

The venue client's asynchronous calls are modelled as explicit parameters
(the fetched lists, the tri-state outcome of a place/cancel call), and the
side channel (`orderflow_tx` / `cpty_res_tx` broadcasts) is modelled as a
list of emitted responses returned from each operation.  `BTreeMap` is
modelled as an association list with replace-on-insert semantics
(`upsert`), looked up by `lookupA`; the set of key/value pairs is the
same as the source map's.  Rust's `Decimal` (rust_decimal) is modelled as a
signed mantissa with a decimal scale; `try_from_i128_with_scale` fails
exactly when the mantissa magnitude does not fit in 96 bits (the library's
`OutOfRange` condition).  `f64` casts (`Decimal::to_f64`, which never
returns `None` in rust_decimal) are modelled as an always-successful cast
whose numeric value is irrelevant to every property proved here; the match
on the `Option` result is kept to mirror the source's control flow.
-/

namespace Vertex

/-- Association-list lookup with decidable key equality, modelling
`BTreeMap::get`: returns the value most recently upserted for the key. -/
def lookupA {α β : Type} [DecidableEq α] : List (α × β) → α → Option β
  | [], _ => none
  | (k, v) :: rest, key => if key = k then some v else lookupA rest key

/-- Association-list insert with `BTreeMap::insert` semantics: replaces the
value at an existing key, otherwise appends the new binding. -/
def upsert {α β : Type} [DecidableEq α] : List (α × β) → α → β → List (α × β)
  | [], k, v => [(k, v)]
  | (k0, v0) :: rest, k, v =>
      if k = k0 then (k, v) :: rest else (k0, v0) :: upsert rest k v

/-- Rust `str::strip_suffix`: removes the given suffix if the string ends
with it, otherwise `None` (computed on the character lists). -/
def stripSuffix? (s sfx : String) : Option String :=
  if s.data.drop (s.data.length - sfx.data.length) = sfx.data then
    some (String.mk (s.data.take (s.data.length - sfx.data.length)))
  else none

/-- rust_decimal `Decimal`: integer mantissa with a decimal scale,
denoting mantissa / 10^scale. -/
structure Decimal where
  mantissa : Int
  scale : Nat
deriving DecidableEq, Repr

/-- `Decimal::try_from_i128_with_scale`: succeeds iff the scale is at most
28 and the mantissa magnitude fits in 96 bits. -/
def tryFromI128WithScale (v : Int) (scale : Nat) : Option Decimal :=
  if scale ≤ 28 ∧ v.natAbs < 2 ^ 96 then some ⟨v, scale⟩ else none

/-- Helper for `Decimal::normalize`: strip factors of 10 from the mantissa
while the scale is positive, structurally recursing on the scale. -/
def normalizeAux : Int → Nat → Decimal
  | m, 0 => ⟨m, 0⟩
  | m, s + 1 => if m % 10 = 0 then normalizeAux (m / 10) s else ⟨m, s + 1⟩

/-- `Decimal::normalize`: removes trailing zero digits. -/
def Decimal.normalize (d : Decimal) : Decimal :=
  normalizeAux d.mantissa d.scale

/-- The decimal zero, `dec!(0)`. -/
def Decimal.zero : Decimal := ⟨0, 0⟩

/-- Rust `Decimal` strict order (`<`), by cross-multiplied mantissas. -/
def Decimal.blt (a b : Decimal) : Bool :=
  decide (a.mantissa * 10 ^ b.scale < b.mantissa * 10 ^ a.scale)

/-- Strict positivity of a `Decimal`, i.e. `dec!(0) < d`. -/
def Decimal.isPosB (d : Decimal) : Bool := decide (0 < d.mantissa)

/-- `Decimal::to_f64` via rust_decimal's `ToPrimitive`: the cast always
succeeds; the floating-point value itself is not modelled because no
property proved here depends on it. -/
def Decimal.toF64 (_d : Decimal) : Option Unit := some ()

/-- `str::parse::<u32>`: optional leading plus sign, one or more ASCII
digits, value below 2^32. -/
def parseU32 (s : String) : Option Nat :=
  let ds := match s.data with
    | '+' :: rest => rest
    | other => other
  if ds ≠ [] ∧ ds.all Char.isDigit then
    let v := ds.foldl (fun acc c => acc * 10 + (c.toNat - 48)) 0
    if v < 2 ^ 32 then some v else none
  else none

/-- Lowercase hex digit for a value below 16. -/
def hexDigitChar (n : Nat) : Char :=
  if n < 10 then Char.ofNat (48 + n) else Char.ofNat (87 + n)

/-- `hex::encode`: each byte becomes two lowercase hex characters (bytes
are u8, hence the explicit reduction mod 256). -/
def hexEncode (bytes : List Nat) : String :=
  String.mk (bytes.foldr
    (fun b acc => hexDigitChar (b % 256 / 16) :: hexDigitChar (b % 16) :: acc) [])

/-- Value of one hex character, accepting both cases. -/
def hexDigitVal? (c : Char) : Option Nat :=
  if '0' ≤ c ∧ c ≤ '9' then some (c.toNat - 48)
  else if 'a' ≤ c ∧ c ≤ 'f' then some (c.toNat - 87)
  else if 'A' ≤ c ∧ c ≤ 'F' then some (c.toNat - 55)
  else none

/-- Decode a character list two at a time into bytes; fails on a non-hex
character or an odd length. -/
def hexDecodePairs : List Char → Option (List Nat)
  | [] => some []
  | [_] => none
  | c1 :: c2 :: rest =>
      (hexDigitVal? c1).bind fun hi =>
        (hexDigitVal? c2).bind fun lo =>
          (hexDecodePairs rest).map fun bs => (16 * hi + lo) :: bs

/-- `hex::decode_to_slice` into a `[u8; 32]` buffer: succeeds iff the
string is exactly 64 hex characters, yielding the 32 decoded bytes. -/
def hexDecode32 (s : String) : Option (List Nat) :=
  if s.length = 64 then hexDecodePairs s.data else none

/-- Canonical product kind distinguishing `Product::crypto` from
`Product::perpetual` constructions. -/
inductive ProductKind where
  | crypto
  | perpetual (venue : Option String)
deriving DecidableEq, Repr

/-- Canonical `Product` of architect_api, as this connector constructs it:
a name plus the constructor used. -/
structure Product where
  name : String
  kind : ProductKind
deriving DecidableEq, Repr

/-- `Product::crypto(symbol)`. -/
def Product.crypto (s : String) : Product := ⟨s, .crypto⟩

/-- `Product::perpetual(symbol, venue)`. -/
def Product.perpetual (s : String) (v : Option String) : Product :=
  ⟨s, .perpetual v⟩

/-- Canonical `TradableProduct`: a base product with an optional quote. -/
structure TradableProduct where
  base : Product
  quote : Option Product
deriving DecidableEq, Repr

/-- `TradableProduct::new(base, quote)`. -/
def TradableProduct.new (b : Product) (q : Option Product) : TradableProduct :=
  ⟨b, q⟩

/-- `TickSize` of architect_api; the connector only builds `Simple`. -/
inductive TickSize where
  | Simple (d : Decimal)
deriving DecidableEq, Repr

/-- `MinOrderQuantityUnit`; the connector only uses `Base`. -/
inductive MinOrderQuantityUnit where
  | Base
  | Quote
deriving DecidableEq, Repr

/-- `ExecutionInfo` of architect_api, with the fields the connector sets. -/
structure ExecutionInfo where
  execution_venue : String
  exchange_symbol : Option String
  tick_size : TickSize
  step_size : Decimal
  min_order_quantity : Decimal
  min_order_quantity_unit : MinOrderQuantityUnit
  is_delisted : Bool
  initial_margin : Option Decimal
  maintenance_margin : Option Decimal
deriving DecidableEq, Repr

/-- The loaded symbology snapshot (`VertexSymbology` in `symbology.rs`),
with `BTreeMap`s modelled as association lists. -/
structure VertexSymbology where
  products : List (Nat × Product)
  tradable_products : List (Nat × TradableProduct)
  execution_info : List (TradableProduct × List (String × ExecutionInfo))
deriving DecidableEq, Repr

/-- Parameters of an architect_api limit order. -/
structure LimitParams where
  limit_price : Decimal
  post_only : Bool
deriving DecidableEq, Repr

/-- architect_api `OrderType`; the connector matches `Limit` and treats
every other variant uniformly via a wildcard arm. -/
inductive OrderType where
  | Limit (limit : LimitParams)
  | Market
  | StopLossLimit (limit : LimitParams) (trigger_price : Decimal)
deriving DecidableEq, Repr

/-- Canonical `Order` (the fields this connector reads). `symbol` is the
`TradableProduct` key used against the execution-info map. -/
structure Order where
  id : Nat
  symbol : TradableProduct
  execution_venue : String
  quantity : Decimal
  order_type : OrderType
  exchange_order_id : Option String
deriving DecidableEq, Repr

/-- Canonical `Cancel` request. -/
structure Cancel where
  cancel_id : Nat
  order_id : Nat
deriving DecidableEq, Repr

/-- `OrderRejectReason` values used by this connector. -/
inductive OrderRejectReason where
  | Unknown
  | UnsupportedOrderType
deriving DecidableEq, Repr

/-- `OrderAck` payload. -/
structure OrderAck where
  order_id : Nat
  exchange_order_id : Option String
deriving DecidableEq, Repr

/-- `OrderReject` payload. -/
structure OrderReject where
  order_id : Nat
  reason : OrderRejectReason
  message : Option String
deriving DecidableEq, Repr

/-- `OrderCanceled` payload. -/
structure OrderCanceled where
  order_id : Nat
  cancel_id : Option Nat
deriving DecidableEq, Repr

/-- `CancelReject` payload. -/
structure CancelReject where
  cancel_id : Nat
  order_id : Nat
  message : Option String
deriving DecidableEq, Repr

/-- The `Orderflow` response variants this connector emits. -/
inductive Orderflow where
  | OrderAck (a : OrderAck)
  | OrderReject (r : OrderReject)
  | OrderCanceled (c : OrderCanceled)
  | CancelReject (cr : CancelReject)
deriving DecidableEq, Repr

/-- True for the order-placement responses (ack or reject). -/
def Orderflow.isOrderResponse : Orderflow → Bool
  | .OrderAck _ => true
  | .OrderReject _ => true
  | _ => false

/-- True for the cancellation responses (canceled or cancel-reject). -/
def Orderflow.isCancelResponse : Orderflow → Bool
  | .OrderCanceled _ => true
  | .CancelReject _ => true
  | _ => false

/-- Successful venue place-order result: the venue-assigned digest bytes
(`res.digest`, a `[u8; 32]` in the SDK). -/
structure PlaceOrderRes where
  digest : List Nat
deriving DecidableEq, Repr

/-- Tri-state outcome of the venue's asynchronous place-order call:
`Ok(Some(res))`, `Ok(None)`, or `Err(e)`. -/
inductive PlaceOutcome where
  | success (res : PlaceOrderRes)
  | declined
  | failure (e : String)
deriving DecidableEq, Repr

/-- `anyhow::Result<()>` as `place_order` returns it: `Ok(())` or an
error with a message. -/
inductive RustResult where
  | ok
  | err (msg : String)
deriving DecidableEq, Repr

/-- What `place_order` did: the responses broadcast on `orderflow_tx`, the
product id handed to the venue place call if that call was reached, and
the function's own `Result<()>` (errors come from the `bail!` / `?`
invariant-violation path). -/
structure PlaceEffect where
  emitted : List Orderflow
  venue_call : Option Nat
  result : RustResult
deriving DecidableEq, Repr

/-- `VertexService::place_order` (`order_entry.rs` lines 8-107), with the
venue call's outcome supplied as the `outcome` parameter.  The amount and
price handed to the venue (`f64_to_x18` of the casts) are not recorded:
no claim constrains them. -/
def place_order (symb : VertexSymbology) (order : Order)
    (outcome : PlaceOutcome) : PlaceEffect :=
  match (lookupA symb.execution_info order.symbol).bind
      (fun i => lookupA i order.execution_venue) with
  | none =>
      ⟨[.OrderReject ⟨order.id, .Unknown, some "no execution info for symbol"⟩],
        none, .ok⟩
  | some info =>
    match info.exchange_symbol with
    | none => ⟨[], none, .err "unexpected no product id for symbol"⟩
    | some pidStr =>
      match parseU32 pidStr with
      | none => ⟨[], none, .err "invalid product id"⟩
      | some product_id =>
        match order.quantity.toF64 with
        | none =>
            ⟨[.OrderReject ⟨order.id, .Unknown, some "unable to cast quantity"⟩],
              none, .ok⟩
        | some _ =>
          match order.order_type with
          | .Limit limit =>
            if limit.post_only then
              ⟨[.OrderReject ⟨order.id, .UnsupportedOrderType,
                  some "unsupported post-only flag"⟩], none, .ok⟩
            else
              match limit.limit_price.toF64 with
              | none =>
                  ⟨[.OrderReject ⟨order.id, .Unknown, some "unable to cast price"⟩],
                    none, .ok⟩
              | some _ =>
                match outcome with
                | .success res =>
                    ⟨[.OrderAck ⟨order.id, some ("0x" ++ hexEncode res.digest)⟩],
                      some product_id, .ok⟩
                | .declined =>
                    ⟨[.OrderReject ⟨order.id, .Unknown, some "unable to place order"⟩],
                      some product_id, .ok⟩
                | .failure e =>
                    ⟨[.OrderReject ⟨order.id, .Unknown,
                        some ("unable to place order: " ++ e)⟩],
                      some product_id, .ok⟩
          | _ =>
              ⟨[.OrderReject ⟨order.id, .UnsupportedOrderType,
                  some "unsupported order type"⟩], none, .ok⟩

/-- One entry of the venue cancellation result's `cancelled_orders`. -/
structure CancelledOrder where
  digest : List Nat
deriving DecidableEq, Repr

/-- Successful venue cancellation result. -/
structure CancellationRes where
  cancelled_orders : List CancelledOrder
deriving DecidableEq, Repr

/-- Tri-state outcome of the venue's cancellation call; `Ok(None)` and
`Err(_)` are matched by the same source arm. -/
inductive CancelOutcome where
  | success (res : CancellationRes)
  | declined
  | failure (e : String)
deriving DecidableEq, Repr

/-- What `cancel_order` did: the responses broadcast on `orderflow_tx` and
the digest handed to the venue cancellation call if it was reached.  Every
path of the source returns `Ok(())`, so no error component is needed. -/
structure CancelEffect where
  emitted : List Orderflow
  venue_call : Option (List Nat)
deriving DecidableEq, Repr

/-- The source's scan over `res.cancelled_orders` looking for an entry
whose digest equals the cancelled digest (first match wins; emission does
not depend on which entry matched, so the scan reduces to this search). -/
def anyDigestMatches (digest : List Nat) : List CancelledOrder → Bool
  | [] => false
  | co :: rest => if co.digest = digest then true else anyDigestMatches digest rest

/-- `VertexService::cancel_order` (`order_entry.rs` lines 109-169), with
the venue call's outcome supplied as the `outcome` parameter.  The
`reject!` macro becomes the explicit `CancelReject` construction in each
early-return arm. -/
def cancel_order (cancel : Cancel) (original_order : Option Order)
    (outcome : CancelOutcome) : CancelEffect :=
  match original_order with
  | none =>
      ⟨[.CancelReject ⟨cancel.cancel_id, cancel.order_id, some "no original order"⟩],
        none⟩
  | some oo =>
    match oo.exchange_order_id with
    | none =>
        ⟨[.CancelReject ⟨cancel.cancel_id, cancel.order_id,
            some "no exchange order id"⟩], none⟩
    | some xoid =>
      match stripSuffix? xoid "0x" with
      | none =>
          ⟨[.CancelReject ⟨cancel.cancel_id, cancel.order_id,
              some "invalid exchange order id"⟩], none⟩
      | some digest_s =>
        match hexDecode32 digest_s with
        | none =>
            ⟨[.CancelReject ⟨cancel.cancel_id, cancel.order_id,
                some "invalid exchange order id"⟩], none⟩
        | some digest =>
          match outcome with
          | .declined =>
              ⟨[.CancelReject ⟨cancel.cancel_id, cancel.order_id,
                  some "unable to cancel order"⟩], some digest⟩
          | .failure _ =>
              ⟨[.CancelReject ⟨cancel.cancel_id, cancel.order_id,
                  some "unable to cancel order"⟩], some digest⟩
          | .success res =>
            if anyDigestMatches digest res.cancelled_orders then
              ⟨[.OrderCanceled ⟨oo.id, some cancel.cancel_id⟩], some digest⟩
            else
              ⟨[.CancelReject ⟨cancel.cancel_id, cancel.order_id,
                  some "order didn't cancel"⟩], some digest⟩

/-- A venue asset as fetched by `client.get_assets()` (the fields
`load_symbology` reads). -/
structure VAsset where
  product_id : Nat
  symbol : String
  market_type : Option String
  ticker_id : Option String
deriving DecidableEq, Repr

/-- A perpetual product's book parameters, fixed-point at 18 fractional
digits (`i128` in the SDK). -/
structure BookInfo where
  price_increment_x18 : Int
  size_increment : Int
  min_size : Int
deriving DecidableEq, Repr

/-- A perpetual product entry of `client.get_all_products()`. -/
structure PerpProductItem where
  product_id : Nat
  book_info : BookInfo
deriving DecidableEq, Repr

/-- The product catalog fetched by `client.get_all_products()`.  The spot
entries are opaque: the source's loop over them is an empty `TODO` body. -/
structure AllProducts where
  perp_products : List PerpProductItem
  spot_products : List Unit
deriving DecidableEq, Repr

/-- The first loop body of `load_symbology` (`symbology.rs` lines 24-34):
spot or untagged assets are registered as crypto `Product`s, every other
tag falls to the skip arm; every asset is recorded in the `assets` map. -/
def process_asset (st : List (Nat × Product) × List (Nat × VAsset))
    (asset : VAsset) : List (Nat × Product) × List (Nat × VAsset) :=
  let products :=
    match asset.market_type with
    | some "spot" => upsert st.1 asset.product_id (Product.crypto asset.symbol)
    | none => upsert st.1 asset.product_id (Product.crypto asset.symbol)
    | _ => st.1
  (products, upsert st.2 asset.product_id asset)

/-- The perpetual-product loop body of `load_symbology` (`symbology.rs`
lines 40-116): resolve the asset, derive the base from the ticker by
stripping the venue's `-PERP_USDC` convention, insert the tradable
product, then convert the three fixed-point book parameters; any
conversion failure `continue`s, leaving the execution-info map alone. -/
def process_perp_item (assets : List (Nat × VAsset))
    (st : List (Nat × TradableProduct)
      × List (TradableProduct × List (String × ExecutionInfo)))
    (item : PerpProductItem) :
    List (Nat × TradableProduct)
      × List (TradableProduct × List (String × ExecutionInfo)) :=
  match lookupA assets item.product_id with
  | none => st
  | some asset =>
    match asset.ticker_id with
    | none => st
    | some ticker_id =>
      match stripSuffix? ticker_id "-PERP_USDC" with
      | none => st
      | some raw_perp =>
        let base := Product.perpetual (raw_perp ++ "-USDC") (some "VERTEX")
        let tradable_product := TradableProduct.new base (some (Product.crypto "USDC"))
        let tps := upsert st.1 item.product_id tradable_product
        match tryFromI128WithScale item.book_info.price_increment_x18 18 with
        | none => (tps, st.2)
        | some tick0 =>
          let tick_size := tick0.normalize
          match tryFromI128WithScale item.book_info.size_increment 18 with
          | none => (tps, st.2)
          | some step0 =>
            let step_size := step0.normalize
            match tryFromI128WithScale item.book_info.min_size 18 with
            | none => (tps, st.2)
            | some min0 =>
              let min_size := min0.normalize
              let info : ExecutionInfo :=
                { execution_venue := "VERTEX"
                  exchange_symbol := some (toString item.product_id)
                  tick_size := TickSize.Simple tick_size
                  step_size := step_size
                  min_order_quantity := min_size
                  min_order_quantity_unit := .Base
                  is_delisted := false
                  initial_margin := none
                  maintenance_margin := none }
              (tps, upsert st.2 tradable_product [("VERTEX", info)])

/-- `load_symbology` (`symbology.rs` lines 15-123) as a pure function of
the two fetched lists; the fetches themselves and the fatal
catalog-fetch errors happen before these loops and are outside the model. -/
def load_symbology (all_assets : List VAsset) (all_products : AllProducts) :
    VertexSymbology :=
  let pa := all_assets.foldl process_asset ([], [])
  let te := all_products.perp_products.foldl (process_perp_item pa.2) ([], [])
  { products := pa.1, tradable_products := te.1, execution_info := te.2 }

/-- A spot or perpetual balance entry of the venue's subaccount info: the
product id and the fixed-point amount (`item.balance.amount`). -/
structure BalanceItem where
  product_id : Nat
  amount : Int
deriving DecidableEq, Repr

/-- The subaccount info fetched by `client.get_subaccount_info`. -/
structure SubaccountInfo where
  spot_balances : List BalanceItem
  perp_balances : List BalanceItem
deriving DecidableEq, Repr

/-- architect_api `AccountPosition`, restricted to the one field this
connector sets (`..Default::default()` fills the rest). -/
structure AccountPosition where
  quantity : Decimal
deriving DecidableEq, Repr

/-- The `UpdateAccountSummary` response (`CptyResponse` variant) as this
connector builds it. -/
structure AccountSummary where
  account : Nat
  timestamp : Int
  timestamp_ns : Nat
  balances : Option (List (Product × Decimal))
  positions : Option (List (TradableProduct × List AccountPosition))
  is_snapshot : Bool
deriving DecidableEq, Repr

/-- The spot-balances loop body of `update_account_summary`
(`positions.rs` lines 19-41): resolve the product, convert the
fixed-point amount, and keep the entry only when strictly positive. -/
def process_spot_balance (symb : VertexSymbology)
    (acc : List (Product × Decimal)) (item : BalanceItem) :
    List (Product × Decimal) :=
  match lookupA symb.products item.product_id with
  | none => acc
  | some product =>
    match tryFromI128WithScale item.amount 18 with
    | none => acc
    | some quantity =>
      if Decimal.blt Decimal.zero quantity then upsert acc product quantity
      else acc

/-- The perp-balances loop body of `update_account_summary`
(`positions.rs` lines 42-68). -/
def process_perp_balance (symb : VertexSymbology)
    (acc : List (TradableProduct × List AccountPosition)) (item : BalanceItem) :
    List (TradableProduct × List AccountPosition) :=
  match lookupA symb.tradable_products item.product_id with
  | none => acc
  | some tradable_product =>
    match tryFromI128WithScale item.amount 18 with
    | none => acc
    | some quantity =>
      if Decimal.blt Decimal.zero quantity then
        upsert acc tradable_product [⟨quantity⟩]
      else acc

/-- `VertexService::update_account_summary` (`positions.rs` lines 12-81)
as a pure function of the fetched subaccount info and the wall clock
(`ts`/`ts_ns`, external inputs). -/
def update_account_summary (account_id : Nat) (symb : VertexSymbology)
    (info : SubaccountInfo) (ts : Int) (ts_ns : Nat) : AccountSummary :=
  let balances := info.spot_balances.foldl (process_spot_balance symb) []
  let positions := info.perp_balances.foldl (process_perp_balance symb) []
  { account := account_id
    timestamp := ts
    timestamp_ns := ts_ns
    balances := some balances
    positions := some positions
    is_snapshot := true }

/-! ### Concrete fixtures (the worked scenario of the spec, §8) -/

/-- The perpetual asset of the spec's worked scenario. -/
def sampleAsset : VAsset := ⟨7, "BTC", some "perp", some "BTC-PERP_USDC"⟩

/-- Product catalog of the worked scenario: tick 0.1, step 0.001,
min size 0.01, fixed-point at 18 fractional digits. -/
def sampleCatalog : AllProducts := ⟨[⟨7, ⟨10 ^ 17, 10 ^ 15, 10 ^ 16⟩⟩], []⟩

/-- The symbology snapshot loaded from the worked scenario. -/
def sampleSymb : VertexSymbology := load_symbology [sampleAsset] sampleCatalog

/-- The tradable product "BTC-USDC" that the worked scenario produces. -/
def sampleTradable : TradableProduct :=
  TradableProduct.new (Product.perpetual "BTC-USDC" (some "VERTEX"))
    (some (Product.crypto "USDC"))

/-- A plain limit order (quantity 1.5 at 20000.25) on the scenario's
product. -/
def sampleOrder : Order :=
  ⟨1, sampleTradable, "VERTEX", ⟨15, 1⟩, .Limit ⟨⟨2000025, 2⟩, false⟩, none⟩

/-- An execution-info entry with no exchange symbol — content the place
contract quantifies over but the loader never produces. -/
def badInfo : ExecutionInfo :=
  ⟨"VERTEX", none, .Simple ⟨1, 1⟩, ⟨1, 3⟩, ⟨1, 2⟩, .Base, false, none, none⟩

/-- A snapshot holding `badInfo` for the sample product. -/
def badSymb : VertexSymbology :=
  ⟨[], [], [(sampleTradable, [("VERTEX", badInfo)])]⟩

/-- A venue-returned 32-byte identifier (every byte 0xAB). -/
def sampleDigest : List Nat := List.replicate 32 171

/-- The exchange order id the ack path formats for `sampleDigest`. -/
def sampleAckId : String := "0x" ++ hexEncode sampleDigest

/-- The execution info the loader builds for the worked scenario. -/
def sampleInfo : ExecutionInfo :=
  ⟨"VERTEX", some "7", .Simple ⟨1, 1⟩, ⟨1, 3⟩, ⟨1, 2⟩, .Base, false, none, none⟩

/-- The sample order with a market order type. -/
def marketOrder : Order := { sampleOrder with order_type := .Market }

/-- The sample order carrying an exchange order id that survives marker
stripping but is not 64 hex characters. -/
def oddOrder : Order := { sampleOrder with exchange_order_id := some "zz0x" }

/-- The worked scenario's catalog with an unconvertible price increment
(the fixed-point value does not fit rust_decimal's 96-bit mantissa). -/
def hugeTickCatalog : AllProducts := ⟨[⟨7, ⟨2 ^ 96, 10 ^ 15, 10 ^ 16⟩⟩], []⟩

/-! ### Helper lemmas -/

/-- `upsert` preserves a predicate holding of every value in the map when
the inserted value satisfies it. -/
lemma all_upsert {α β : Type} [DecidableEq α] (P : β → Bool)
    (l : List (α × β)) (k : α) (v : β)
    (hl : l.all (fun p => P p.2) = true) (hv : P v = true) :
    (upsert l k v).all (fun p => P p.2) = true := by
  induction l with
  | nil => simp [upsert, hv]
  | cons hd tl ih =>
      simp only [List.all_cons, Bool.and_eq_true] at hl
      simp only [upsert]
      split
      · simp [hv, hl.2]
      · simpa [hl.1] using ih hl.2

/-- A `foldl` invariant: a property preserved by each step holds of the
final accumulator. -/
lemma all_foldl {α σ : Type} (P : σ → Bool) (f : σ → α → σ)
    (hstep : ∀ s a, P s = true → P (f s a) = true) :
    ∀ (l : List α) (s : σ), P s = true → P (l.foldl f s) = true := by
  intro l
  induction l with
  | nil => intro s hs; simpa using hs
  | cons hd tl ih => intro s hs; exact ih (f s hd) (hstep s hd hs)

/-- The source's positivity test `quantity > dec!(0)` coincides with
positivity of the mantissa. -/
lemma blt_zero_eq_isPosB (q : Decimal) : Decimal.blt Decimal.zero q = q.isPosB := by
  simp [Decimal.blt, Decimal.zero, Decimal.isPosB]

/-- If some character of the list is not a hex digit, pairwise hex
decoding fails. -/
lemma hexDecodePairs_none_of_not_all (cs : List Char)
    (h : cs.all (fun c => (hexDigitVal? c).isSome) = false) :
    hexDecodePairs cs = none := by
  induction cs using hexDecodePairs.induct with
  | case1 => simp at h
  | case2 c => rfl
  | case3 c1 c2 rest ih =>
      simp only [List.all_cons, Bool.and_eq_false_iff] at h
      cases h1 : hexDigitVal? c1 with
      | none => simp [hexDecodePairs, h1]
      | some hi =>
          cases h2 : hexDigitVal? c2 with
          | none => simp [hexDecodePairs, h1, h2]
          | some lo =>
              have hrest : rest.all (fun c => (hexDigitVal? c).isSome) = false := by
                rcases h with h | h | h
                · rw [h1] at h; simp at h
                · rw [h2] at h; simp at h
                · exact h
              simp [hexDecodePairs, h1, h2, ih hrest]


/-! ### C5: cancel emits exactly one response -/

/-- C5: for every cancel request — any original-order argument, present or
absent, and any venue outcome — `cancel_order` emits exactly one response,
and it is an `OrderCanceled` or a `CancelReject`: never both, never
neither. -/
theorem cancel_emits_exactly_one (c : Cancel) (oo : Option Order)
    (out : CancelOutcome) :
    ∃ r, (cancel_order c oo out).emitted = [r] ∧ r.isCancelResponse = true := by
  unfold cancel_order
  repeat' split
  all_goals exact ⟨_, rfl, rfl⟩

/-! ### C6: unknown symbol is rejected without a venue call -/

/-- C6: for every order whose (symbol, execution venue) pair is absent
from the symbology snapshot, `place_order` emits exactly one `OrderReject`
with reason `Unknown` and message "no execution info for symbol", and the
venue place call is never invoked. -/
theorem place_unknown_symbol_rejects (symb : VertexSymbology) (order : Order)
    (out : PlaceOutcome)
    (h : (lookupA symb.execution_info order.symbol).bind
        (fun i => lookupA i order.execution_venue) = none) :
    place_order symb order out =
      ⟨[.OrderReject ⟨order.id, .Unknown, some "no execution info for symbol"⟩],
        none, .ok⟩ := by
  unfold place_order
  rw [h]

/-! ### C7: unsupported order types are rejected without a venue call -/

/-- C7: for every order resolving to an execution info whose exchange
symbol parses as a numeric product id, a non-limit order type or a
post-only limit is rejected with reason `UnsupportedOrderType` (message
"unsupported order type" / "unsupported post-only flag" respectively) and
the venue place call is never invoked. -/
theorem place_unsupported_order_type_rejects (symb : VertexSymbology)
    (order : Order) (out : PlaceOutcome) (info : ExecutionInfo) (s : String)
    (pid : Nat)
    (h1 : (lookupA symb.execution_info order.symbol).bind
        (fun i => lookupA i order.execution_venue) = some info)
    (h2 : info.exchange_symbol = some s)
    (h3 : parseU32 s = some pid)
    (h4 : (∃ lim, order.order_type = .Limit lim ∧ lim.post_only = true)
        ∨ ∀ lim, order.order_type ≠ .Limit lim) :
    place_order symb order out =
      ⟨[.OrderReject ⟨order.id, .UnsupportedOrderType,
          some (match order.order_type with
                | .Limit _ => "unsupported post-only flag"
                | _ => "unsupported order type")⟩], none, .ok⟩ := by
  unfold place_order
  simp only [h1, Option.bind_some, h2, h3, Decimal.toF64]
  rcases h4 with ⟨lim, hl, hp⟩ | h4
  · rw [hl]; simp [hp]
  · cases ho : order.order_type with
    | Limit lim => exact absurd ho (h4 lim)
    | Market => simp
    | StopLossLimit lim trigger => simp

/-! ### C4: place emits exactly one response (amended) -/

/-- C4 counterexample: with an execution-info entry whose exchange symbol
is absent, `place_order` emits zero responses and fails with the
invariant-violation error, refuting "exactly one Response is emitted —
never zero" for arbitrary ExecutionInfo content. -/
theorem place_missing_exchange_symbol_emits_nothing :
    (place_order badSymb sampleOrder .declined).emitted = []
    ∧ (place_order badSymb sampleOrder .declined).result
        = .err "unexpected no product id for symbol" := by
  exact ⟨rfl, rfl⟩

/-- C4 (amended): for every order whose execution-info lookup either fails
or yields an entry carrying a parsable numeric exchange symbol,
`place_order` emits exactly one response — an `OrderAck` or an
`OrderReject` — and returns `Ok`; the absent/non-numeric exchange-symbol
case instead fails the request-handling path, emitting nothing. -/
theorem place_emits_exactly_one_of_wellformed (symb : VertexSymbology)
    (order : Order) (out : PlaceOutcome)
    (h : Option.all (fun info => (info.exchange_symbol.bind parseU32).isSome)
        ((lookupA symb.execution_info order.symbol).bind
          (fun i => lookupA i order.execution_venue)) = true) :
    ∃ r, (place_order symb order out).emitted = [r]
      ∧ r.isOrderResponse = true
      ∧ (place_order symb order out).result = .ok := by
  unfold place_order
  cases hl : (lookupA symb.execution_info order.symbol).bind
      (fun i => lookupA i order.execution_venue) with
  | none => exact ⟨_, rfl, rfl, rfl⟩
  | some info =>
      rw [hl] at h
      simp only [Option.all] at h
      cases h2 : info.exchange_symbol with
      | none => rw [h2] at h; simp at h
      | some s =>
          rw [h2] at h
          simp only [Option.some_bind] at h
          cases h3 : parseU32 s with
          | none => rw [h3] at h; simp at h
          | some pid =>
              simp only [h2, h3, Decimal.toF64]
              repeat' split
              all_goals exact ⟨_, rfl, rfl, rfl⟩

/-! ### C10: undecodable exchange order ids are rejected before the venue -/

/-- C10: for every cancel whose original order carries an exchange order
id that, after marker stripping, is not exactly 64 hex characters (so does
not decode to the 32-byte buffer), `cancel_order` emits a `CancelReject`
with message "invalid exchange order id" and never invokes the venue
cancellation call. -/
theorem cancel_invalid_hex_rejects (c : Cancel) (oo : Order)
    (out : CancelOutcome) (xoid s : String)
    (h1 : oo.exchange_order_id = some xoid)
    (h2 : stripSuffix? xoid "0x" = some s)
    (h3 : ¬(s.length = 64
        ∧ s.data.all (fun ch => (hexDigitVal? ch).isSome) = true)) :
    cancel_order c (some oo) out =
      ⟨[.CancelReject ⟨c.cancel_id, c.order_id, some "invalid exchange order id"⟩],
        none⟩ := by
  have hdec : hexDecode32 s = none := by
    by_cases hlen : s.length = 64
    · have hall : s.data.all (fun ch => (hexDigitVal? ch).isSome) = false := by
        rcases Bool.eq_false_or_eq_true
            (s.data.all fun ch => (hexDigitVal? ch).isSome) with ht | hf
        · exact absurd ⟨hlen, ht⟩ h3
        · exact hf
      simp [hexDecode32, hlen, hexDecodePairs_none_of_not_all _ hall]
    · simp [hexDecode32, hlen]
  unfold cancel_order
  simp only [h1, h2, hdec]

/-! ### C1: the ack/cancel identifier round-trip -/

/-- C1: evaluation at the failing input. A successful placement formats
the venue digest as `0x` plus lowercase hex, but feeding that exact ack
id back through the cancel path does not recover the digest: the parse
strips `0x` as a suffix while the format applied it as a prefix, so the
cancel is rejected with "invalid exchange order id" and the venue
cancellation call is never made. -/
theorem exchange_order_id_roundtrip_fails :
    (place_order sampleSymb sampleOrder (.success ⟨sampleDigest⟩)).emitted
      = [.OrderAck ⟨1, some sampleAckId⟩]
    ∧ cancel_order ⟨5, 1⟩
        (some { sampleOrder with exchange_order_id := some sampleAckId })
        (.success ⟨[⟨sampleDigest⟩]⟩)
      = ⟨[.CancelReject ⟨5, 1, some "invalid exchange order id"⟩], none⟩ := by
  exact ⟨rfl, rfl⟩

/-! ### C2: asset classification (amended) -/

/-- C2 counterexample: an asset with the unrecognized market-type tag
"futures" is not registered as a Product — the skip arm `Some("perp") | _`
catches every tag other than exactly "spot", refuting "any unrecognized
value ... is classified as spot and registered". -/
theorem unrecognized_tag_not_registered :
    (load_symbology [⟨1, "FOO", some "futures", none⟩] ⟨[], []⟩).products = []
    ∧ lookupA
        (load_symbology [⟨1, "FOO", some "futures", none⟩] ⟨[], []⟩).products 1
      = none := by
  exact ⟨rfl, rfl⟩

/-- C2 (amended): during symbology load an asset is registered as a
Product exactly when its market-type tag is absent or is exactly "spot";
any other tag value — the perpetual tag or an unrecognized one — leaves
the product map untouched at that step. -/
theorem process_asset_registers_iff
    (st : List (Nat × Product) × List (Nat × VAsset)) (asset : VAsset) :
    (process_asset st asset).1 =
      if asset.market_type = some "spot" ∨ asset.market_type = none
      then upsert st.1 asset.product_id (Product.crypto asset.symbol)
      else st.1 := by
  unfold process_asset
  rcases h : asset.market_type with _ | s
  · simp [h]
  · by_cases hs : s = "spot"
    · subst hs; simp [h]
    · simp only [h]
      rw [if_neg]
      · split
        · rename_i heq; exact absurd (Option.some.inj heq) hs
        · rename_i heq; exact Option.noConfusion heq
        · rfl
      · rintro (hc | hc)
        · exact hs (Option.some.inj hc)
        · exact Option.noConfusion hc

/-! ### C3: conversion failures and catalog exclusion (amended) -/

set_option maxRecDepth 8000 in
/-- C3 counterexample: with a price increment that cannot convert to
decimal, the loaded snapshot has an empty execution-info map yet still
maps product id 7 to its TradableProduct — refuting "appears neither in
the TradableProduct-to-ExecutionInfo map nor in the product-id to
TradableProduct map". -/
theorem conversion_failure_keeps_tradable_product_entry :
    (load_symbology [sampleAsset] hugeTickCatalog).execution_info = []
    ∧ lookupA (load_symbology [sampleAsset] hugeTickCatalog).tradable_products 7
      = some sampleTradable := by
  exact ⟨rfl, rfl⟩

/-- C3 (amended): a perpetual product whose asset and ticker resolve but
whose tick, step, or minimum size fails lossless decimal conversion
contributes nothing to the execution-info map, yet its TradableProduct is
still inserted into the product-id map — that insertion precedes the
conversions. -/
theorem process_perp_item_conversion_failure
    (assets : List (Nat × VAsset))
    (st : List (Nat × TradableProduct)
      × List (TradableProduct × List (String × ExecutionInfo)))
    (item : PerpProductItem) (asset : VAsset) (ticker raw_perp : String)
    (h1 : lookupA assets item.product_id = some asset)
    (h2 : asset.ticker_id = some ticker)
    (h3 : stripSuffix? ticker "-PERP_USDC" = some raw_perp)
    (h4 : tryFromI128WithScale item.book_info.price_increment_x18 18 = none
        ∨ tryFromI128WithScale item.book_info.size_increment 18 = none
        ∨ tryFromI128WithScale item.book_info.min_size 18 = none) :
    (process_perp_item assets st item).2 = st.2
    ∧ (process_perp_item assets st item).1 =
        upsert st.1 item.product_id
          (TradableProduct.new
            (Product.perpetual (raw_perp ++ "-USDC") (some "VERTEX"))
            (some (Product.crypto "USDC"))) := by
  unfold process_perp_item
  simp only [h1, h2, h3]
  rcases h4 with ht | hs | hm
  · simp [ht]
  · cases ht : tryFromI128WithScale item.book_info.price_increment_x18 18 with
    | none => simp [ht]
    | some tick0 => simp [ht, hs]
  · cases ht : tryFromI128WithScale item.book_info.price_increment_x18 18 with
    | none => simp [ht]
    | some tick0 =>
        cases hst : tryFromI128WithScale item.book_info.size_increment 18 with
        | none => simp [ht, hst]
        | some step0 => simp [ht, hst, hm]

/-! ### C8: account summaries hold only strictly positive quantities -/

/-- C8: every emitted account summary holds only strictly positive
balance and position quantities (non-positive entries are dropped, not
reported as zero) and is always marked as a full snapshot. -/
theorem account_summary_positive_and_snapshot (account_id : Nat)
    (symb : VertexSymbology) (info : SubaccountInfo) (ts : Int) (ts_ns : Nat) :
    (update_account_summary account_id symb info ts ts_ns).balances.all
        (fun bs => bs.all (fun p => p.2.isPosB)) = true
    ∧ (update_account_summary account_id symb info ts ts_ns).positions.all
        (fun ps => ps.all (fun p => p.2.all (fun ap => ap.quantity.isPosB))) = true
    ∧ (update_account_summary account_id symb info ts ts_ns).is_snapshot = true := by
  refine ⟨?_, ?_, rfl⟩
  · have hstep : ∀ acc item,
        acc.all (fun p => p.2.isPosB) = true →
        (process_spot_balance symb acc item).all (fun p => p.2.isPosB) = true := by
      intro acc item hacc
      unfold process_spot_balance
      split
      · exact hacc
      · split
        · exact hacc
        · split
          · rename_i hpos
            refine all_upsert Decimal.isPosB _ _ _ hacc ?_
            rw [← blt_zero_eq_isPosB]; exact hpos
          · exact hacc
    simp only [update_account_summary, Option.all]
    exact all_foldl _ (process_spot_balance symb) hstep info.spot_balances [] rfl
  · have hstep : ∀ acc item,
        acc.all (fun p => p.2.all (fun ap => ap.quantity.isPosB)) = true →
        (process_perp_balance symb acc item).all
          (fun p => p.2.all (fun ap => ap.quantity.isPosB)) = true := by
      intro acc item hacc
      unfold process_perp_balance
      split
      · exact hacc
      · split
        · exact hacc
        · split
          · rename_i hpos
            refine all_upsert (fun (v : List AccountPosition) => v.all fun ap => ap.quantity.isPosB)
              _ _ _ hacc ?_
            simp only [List.all_cons, List.all_nil, Bool.and_true]
            rw [← blt_zero_eq_isPosB]
            exact hpos
          · exact hacc
    simp only [update_account_summary, Option.all]
    exact all_foldl _ (process_perp_balance symb) hstep info.perp_balances [] rfl

/-! ### C9: symbology load is deterministic in the fetched data -/

/-- C9: two loads over identical fetched asset and product lists produce
identical snapshots — the load is a pure function of its inputs, so
entries with invalid fixed-point fields are excluded the same way in both
runs. -/
theorem load_symbology_deterministic (as1 as2 : List VAsset)
    (ps1 ps2 : AllProducts) (ha : as1 = as2) (hp : ps1 = ps2) :
    load_symbology as1 ps1 = load_symbology as2 ps2 := by
  subst ha; subst hp; rfl

/-! ### Witnesses -/

/-- Witness for C6 at the empty snapshot and the sample order. -/
theorem place_unknown_symbol_rejects_witness :
    ((lookupA (⟨[], [], []⟩ : VertexSymbology).execution_info
        sampleOrder.symbol).bind
      (fun i => lookupA i sampleOrder.execution_venue) = none)
    ∧ place_order ⟨[], [], []⟩ sampleOrder .declined =
        ⟨[.OrderReject ⟨1, .Unknown, some "no execution info for symbol"⟩],
          none, .ok⟩ :=
  ⟨rfl, place_unknown_symbol_rejects ⟨[], [], []⟩ sampleOrder .declined rfl⟩

/-- Witness for C7 at the loaded sample snapshot and a market order. -/
theorem place_unsupported_order_type_rejects_witness :
    parseU32 "7" = some 7
    ∧ place_order sampleSymb marketOrder .declined =
        ⟨[.OrderReject ⟨1, .UnsupportedOrderType, some "unsupported order type"⟩],
          none, .ok⟩ :=
  ⟨by decide,
    place_unsupported_order_type_rejects sampleSymb marketOrder .declined
      sampleInfo "7" 7 (by decide) rfl (by decide)
      (Or.inr fun lim h => OrderType.noConfusion h)⟩

/-- Witness for the amended C4 at the loaded sample snapshot. -/
theorem place_emits_exactly_one_of_wellformed_witness :
    Option.all (fun info => (info.exchange_symbol.bind parseU32).isSome)
        ((lookupA sampleSymb.execution_info sampleOrder.symbol).bind
          (fun i => lookupA i sampleOrder.execution_venue)) = true
    ∧ ∃ r, (place_order sampleSymb sampleOrder .declined).emitted = [r]
        ∧ r.isOrderResponse = true
        ∧ (place_order sampleSymb sampleOrder .declined).result = .ok :=
  ⟨by decide,
    place_emits_exactly_one_of_wellformed sampleSymb sampleOrder .declined
      (by decide)⟩

/-- Witness for C10 at an id that strips to "zz". -/
theorem cancel_invalid_hex_rejects_witness :
    stripSuffix? "zz0x" "0x" = some "zz"
    ∧ cancel_order ⟨5, 1⟩ (some oddOrder) .declined =
        ⟨[.CancelReject ⟨5, 1, some "invalid exchange order id"⟩], none⟩ :=
  ⟨by decide,
    cancel_invalid_hex_rejects ⟨5, 1⟩ oddOrder .declined "zz0x" "zz" rfl
      (by decide) (by decide)⟩

set_option maxRecDepth 8000 in
/-- Witness for the amended C3 at the huge-tick catalog entry. -/
theorem process_perp_item_conversion_failure_witness :
    (tryFromI128WithScale ((2 : Int) ^ 96) 18 = none
      ∨ tryFromI128WithScale ((10 : Int) ^ 15) 18 = none
      ∨ tryFromI128WithScale ((10 : Int) ^ 16) 18 = none)
    ∧ (process_perp_item [(7, sampleAsset)] ([], [])
        ⟨7, ⟨2 ^ 96, 10 ^ 15, 10 ^ 16⟩⟩).2 = []
    ∧ (process_perp_item [(7, sampleAsset)] ([], [])
        ⟨7, ⟨2 ^ 96, 10 ^ 15, 10 ^ 16⟩⟩).1 = [(7, sampleTradable)] :=
  ⟨Or.inl (by decide),
    (process_perp_item_conversion_failure [(7, sampleAsset)] ([], [])
      ⟨7, ⟨2 ^ 96, 10 ^ 15, 10 ^ 16⟩⟩ sampleAsset "BTC-PERP_USDC" "BTC"
      (by decide) rfl (by decide) (Or.inl (by decide))).1,
    (process_perp_item_conversion_failure [(7, sampleAsset)] ([], [])
      ⟨7, ⟨2 ^ 96, 10 ^ 15, 10 ^ 16⟩⟩ sampleAsset "BTC-PERP_USDC" "BTC"
      (by decide) rfl (by decide) (Or.inl (by decide))).2⟩

/-- Witness for C9 at the worked scenario's inputs. -/
theorem load_symbology_deterministic_witness :
    [sampleAsset] = [sampleAsset]
    ∧ load_symbology [sampleAsset] sampleCatalog
        = load_symbology [sampleAsset] sampleCatalog :=
  ⟨rfl, load_symbology_deterministic [sampleAsset] [sampleAsset]
    sampleCatalog sampleCatalog rfl rfl⟩

end Vertex
